import Mathlib

/-!
Shallow embedding of the worker/runtime orchestration gateway of DenoCool
(crate `cassie-cool`): the port allocator, the per-tenant worker lifecycle
(`ScriptWorkerThread` in `src/cassie-cool/src/worker_util.rs`), the reverse
proxy entry (`forward` in `src/cassie-cool/src/lib.rs`) and the info handler
(`get_runtime_info` in `src/cassie-cool/src/api/runtime_controller.rs`),
together with theorems settling the frozen claims about them.
-/

namespace DenoCool

/-! ### Port allocator (`worker_util.rs`)

`WorkerPort(pub u16)` with `next(&self) = self.0.checked_add(1).map(WorkerPort)`.
Ports are modelled as `Nat` kept within the 16-bit range explicitly. -/

/-- Model of `WorkerPort::next`: `checked_add(1)` on a `u16`, `none` at the 16-bit
boundary. Note that this borrows `&self`: it never mutates the cursor. -/
def portNext (p : Nat) : Option Nat :=
  if p + 1 ≤ 65535 then some (p + 1) else none

/-- Outcome of one `get_next_port` call. `panicked` is the
`curport.next().unwrap()` panic at the 16-bit boundary; `outOfFuel` marks a
run of the `while let` loop that has not terminated within the given fuel. -/
inductive AllocResult where
  | assigned (port : Nat)
  | panicked
  | outOfFuel
deriving DecidableEq, Repr

/-- The `while let Some(port) = curport.next()` loop body of `get_next_port`:
each iteration recomputes `curport.next()` with the cursor `cur` unchanged
(the loop never writes to `curport`), probes that candidate with `is_free`,
and on success sets `curr_port` to it and breaks; `fallback` is the value
`curr_port` holds on entry (`curport.next().unwrap()`), kept if the
`while let` pattern ever fails. -/
def allocLoop (free : Nat → Bool) (cur fallback : Nat) : Nat → AllocResult
  | 0 => .outOfFuel
  | fuel + 1 =>
    match portNext cur with
    | none => .assigned fallback
    | some port =>
      if free port then .assigned port else allocLoop free cur fallback fuel

/-- Model of `get_next_port` (`worker_util.rs`): unwrap `curport.next()` into
`curr_port` (panicking when the cursor already sits at `u16::MAX`), then run
the probe loop. `free` is the `port_selector::is_free` oracle. -/
def get_next_port (free : Nat → Bool) (cur : Nat) (fuel : Nat) : AllocResult :=
  match portNext cur with
  | none => .panicked
  | some init => allocLoop free cur init fuel

/-- Overwriting insert into the `PORT_TABLE` hash map, as an association
list: the fresh binding shadows and drops any stale binding for the key. -/
def insertPort (t : String) (p : Nat) (tbl : List (String × Nat)) :
    List (String × Nat) :=
  (t, p) :: tbl.filter (fun e => e.1 ≠ t)

/-- Hash-map lookup on the association-list model. -/
def lookupTable {α : Type} : List (String × α) → String → Option α
  | [], _ => none
  | (k, v) :: rest, t => if k = t then some v else lookupTable rest t

/-- The allocator's shared state: the `WORKER_PORT` cursor and the
`PORT_TABLE` map. -/
structure AllocState where
  cursor : Nat
  table : List (String × Nat)
deriving DecidableEq, Repr

/-- A full `get_next_port` call for tenant `t`: on a terminating loop run,
write the selected port back to the cursor (`*curport = curr_port`) and
record `t -> port` in the port table, overwriting a stale entry. A panic or
a non-terminating loop yields `none`. -/
def get_next_port_st (free : Nat → Bool) (fuel : Nat) (t : String)
    (st : AllocState) : Option (Nat × AllocState) :=
  match get_next_port free st.cursor fuel with
  | .assigned p => some (p, ⟨p, insertPort t p st.table⟩)
  | .panicked => none
  | .outOfFuel => none

/-- Sequential port assignment for a list of tenants, each call serialized
by the `WORKER_PORT` mutex: threads the allocator state through successive
`get_next_port` calls and collects the assigned ports. -/
def allocAll (free : Nat → Bool) (fuel : Nat) :
    AllocState → List String → Option (List Nat × AllocState)
  | st, [] => some ([], st)
  | st, t :: ts =>
    match get_next_port_st free fuel t st with
    | none => none
    | some (p, st1) =>
      match allocAll free fuel st1 ts with
      | none => none
      | some (ps, st2) => some (p :: ps, st2)

/-! ### Listener Loop and Worker lifecycle (`worker_util.rs`)

The per-tenant listener task spawned in `ScriptWorkerThread::new` holds an
`ok` flag, initialised to `false`; an accepted connection is forwarded to
`stream_tx` when `ok = false` and answered with a fixed rejection payload
when `ok = true`; `ServerStatus::Start` sets `ok = false`,
`ServerStatus::Wait` sets `ok = true`, `ServerStatus::Exit` breaks the loop.
So `ok = false` is the Accepting (forwarding) state and `ok = true` the
Rejecting state. The `dead` state models the listener task having panicked
on `TcpListener::bind(..).unwrap()`. -/

/-- Model of `ServerStatus` from `worker_util.rs`. -/
inductive ServerStatus where
  | start
  | wait
  | exit
deriving DecidableEq, Repr

/-- Observable state of the spawned listener task. -/
inductive ListenerStatus where
  | accepting
  | rejecting
  | terminated
  | dead
deriving DecidableEq, Repr

/-- The listener task is bound and alive (its loop is still running). -/
def listenerAlive (l : ListenerStatus) : Bool :=
  match l with
  | .accepting => true
  | .rejecting => true
  | .terminated => false
  | .dead => false

/-- Effect of a `server_tx` send on the listener task. A terminated or dead
task no longer receives, so the send is a lost no-op. -/
def sendStatus (l : ListenerStatus) (s : ServerStatus) : ListenerStatus :=
  match l with
  | .terminated => .terminated
  | .dead => .dead
  | _ =>
    match s with
    | .start => .accepting
    | .wait => .rejecting
    | .exit => .terminated

/-- Model of `ScriptWorkerThread` (`worker_util.rs`), at the granularity of completed
lifecycle operations. `worker_handlers` holds the channel ids of the
`Terminate` handles in `Vec` order (push/pop at the end); `watch_tx` the
dev-mode cancellation sender; `devRuntimes` the ids of spawned dev-mode
(`--watch`) runtimes not yet cancelled; `nextChan` generates fresh channel
ids; `inPortTable` records whether `PORT_TABLE` holds this tenant. -/
structure ScriptWorkerThread where
  id : String
  port : Nat
  open_debug_server : Bool
  worker_handlers : List Nat
  watch_tx : Option Nat
  devRuntimes : List Nat
  nextChan : Nat
  listener : ListenerStatus
  inPortTable : Bool
deriving DecidableEq, Repr

/-- Model of `ScriptWorkerThread::new`: `get_next_port` has already inserted the
tenant into `PORT_TABLE`; the spawned listener task starts its loop with
`ok = false` (forwarding) when the bind succeeds, and panics (dies) when
`TcpListener::bind(addr).await.unwrap()` fails. Construction itself always
returns the struct — the bind happens inside the detached `tokio::spawn`. -/
def ScriptWorkerThread.new (name : String) (port : Nat) (bindOk : Bool) :
    ScriptWorkerThread :=
  { id := name
    port := port
    open_debug_server := false
    worker_handlers := []
    watch_tx := none
    devRuntimes := []
    nextChan := 0
    listener := if bindOk then .accepting else .dead
    inPortTable := true }

/-- Model of `start_runtime`: read `size` before pushing, spawn a production runtime
wired to a fresh `Terminate` channel, push the handle, and send
`ServerStatus::Start` only when `size == 0`. -/
def ScriptWorkerThread.start_runtime (w : ScriptWorkerThread) :
    ScriptWorkerThread :=
  let size := w.worker_handlers.length
  let w1 := { w with
    worker_handlers := w.worker_handlers ++ [w.nextChan]
    nextChan := w.nextChan + 1 }
  if size = 0 then { w1 with listener := sendStatus w1.listener .start } else w1

/-- Model of `start_debugger_runtime`: only when no production handle is held, set
`open_debug_server` and delegate to `start_runtime`. -/
def ScriptWorkerThread.start_debugger_runtime (w : ScriptWorkerThread) :
    ScriptWorkerThread :=
  if w.worker_handlers.length = 0 then
    ScriptWorkerThread.start_runtime { w with open_debug_server := true }
  else w

/-- Model of `start_watch_runtime`: unconditionally spawn a fresh dev-mode runtime on
a fresh `watch` channel, overwrite `watch_tx` with the new sender, and send
`ServerStatus::Start`. There is no guard against an existing channel. -/
def ScriptWorkerThread.start_watch_runtime (w : ScriptWorkerThread) :
    ScriptWorkerThread :=
  { w with
    watch_tx := some w.nextChan
    devRuntimes := w.nextChan :: w.devRuntimes
    nextChan := w.nextChan + 1
    listener := sendStatus w.listener .start }

/-- Model of `stop_watch_runtime`: take `watch_tx` out; the spawned task then, only
if a sender was present, cancels that dev runtime and sends
`ServerStatus::Wait` — regardless of how many production instances are
still running. -/
def ScriptWorkerThread.stop_watch_runtime (w : ScriptWorkerThread) :
    ScriptWorkerThread :=
  match w.watch_tx with
  | none => { w with watch_tx := none }
  | some c =>
    { w with
      watch_tx := none
      devRuntimes := w.devRuntimes.erase c
      listener := sendStatus w.listener .wait }

/-- Model of `stop_runtime`: pop the last `Terminate` handle; if none, return `false`
(modelled `none`) leaving the state untouched; otherwise signal that
instance and, when the list became empty, send `ServerStatus::Wait` —
regardless of whether dev mode is still active. The first component is the
channel id of the instance that was signalled. -/
def ScriptWorkerThread.stop_runtime (w : ScriptWorkerThread) :
    Option Nat × ScriptWorkerThread :=
  match w.worker_handlers.getLast? with
  | none => (none, w)
  | some h =>
    let rest := w.worker_handlers.dropLast
    let w1 := { w with worker_handlers := rest }
    (some h,
      if rest.length = 0 then { w1 with listener := sendStatus w1.listener .wait }
      else w1)

/-- Teardown events emitted during `Drop for ScriptWorkerThread`, in the
order the drop glue dispatches them. -/
inductive DropEvent where
  | portRemoved
  | devStopSignal (chan : Nat)
  | instStopSignal (chan : Nat)
  | exitSignal
deriving DecidableEq, Repr

/-- The `loop { if !self.stop_runtime() { break } }` body of
`stop_all_runtime`, with fuel bounding the iterations and the terminate
signals recorded in dispatch order. -/
def stopRuntimeLoop : Nat → ScriptWorkerThread →
    List DropEvent × ScriptWorkerThread
  | 0, w => ([], w)
  | fuel + 1, w =>
    match ScriptWorkerThread.stop_runtime w with
    | (none, w1) => ([], w1)
    | (some c, w1) =>
      let r := stopRuntimeLoop fuel w1
      (.instStopSignal c :: r.1, r.2)

/-- Model of `stop_all_runtime`: `stop_watch_runtime` first, then the stop loop.
`worker_handlers.length` iterations suffice: each successful
`stop_runtime` pops exactly one handle. -/
def ScriptWorkerThread.stop_all_runtime (w : ScriptWorkerThread) :
    List DropEvent × ScriptWorkerThread :=
  let devEvs : List DropEvent :=
    match w.watch_tx with
    | some c => [.devStopSignal c]
    | none => []
  let w1 := ScriptWorkerThread.stop_watch_runtime w
  let r := stopRuntimeLoop w1.worker_handlers.length w1
  (devEvs ++ r.1, r.2)

/-- Model of `Drop for ScriptWorkerThread`: remove the tenant from `PORT_TABLE`,
then `stop_all_runtime` (dev mode first, then the production instances),
then `send_blocking(ServerStatus::Exit)`. The events list the dispatch
order. -/
def ScriptWorkerThread.dropWorker (w : ScriptWorkerThread) :
    List DropEvent × ScriptWorkerThread :=
  let w0 := { w with inPortTable := false }
  let r := ScriptWorkerThread.stop_all_runtime w0
  (.portRemoved :: r.1 ++ [.exitSignal],
    { r.2 with listener := sendStatus r.2.listener .exit })

/-! ### Lifecycle traces -/

/-- Completed lifecycle operations on one tenant's Worker. `exitOp` is the
registry removal in the `/runtime/{id}/exit` handler, which drops the
Worker. -/
inductive Op where
  | startRuntime
  | startDebugger
  | startWatch
  | stopRuntime
  | stopWatch
  | exitOp
deriving DecidableEq, Repr

/-- One completed lifecycle operation applied to the Worker state. -/
def step (w : ScriptWorkerThread) (op : Op) : ScriptWorkerThread :=
  match op with
  | .startRuntime => ScriptWorkerThread.start_runtime w
  | .startDebugger => ScriptWorkerThread.start_debugger_runtime w
  | .startWatch => ScriptWorkerThread.start_watch_runtime w
  | .stopRuntime => (ScriptWorkerThread.stop_runtime w).2
  | .stopWatch => ScriptWorkerThread.stop_watch_runtime w
  | .exitOp => (ScriptWorkerThread.dropWorker w).2

/-- Run a trace of completed operations from a given Worker state. -/
def runFrom (w : ScriptWorkerThread) (ops : List Op) : ScriptWorkerThread :=
  ops.foldl step w

/-- The Worker of tenant `"t"` immediately after construction with a
successful listener bind, then a trace of completed operations. -/
def run (ops : List Op) : ScriptWorkerThread :=
  runFrom (ScriptWorkerThread.new "t" 3001 true) ops

/-- Which `ServerStatus` message, if any, the operation sends to the
listener task when executed in state `w` (read off the guards in the
source: `start_runtime` sends `Start` only from an empty handle list,
`stop_runtime` sends `Wait` only when its pop empties the list,
`stop_watch_runtime` sends `Wait` only when a dev channel existed,
`start_watch_runtime` always sends `Start`, drop always sends `Exit`). -/
def controlSent (w : ScriptWorkerThread) (op : Op) : Option ServerStatus :=
  match op with
  | .startRuntime => if w.worker_handlers.length = 0 then some .start else none
  | .startDebugger => if w.worker_handlers.length = 0 then some .start else none
  | .startWatch => some .start
  | .stopRuntime => if w.worker_handlers.length = 1 then some .wait else none
  | .stopWatch => if w.watch_tx.isSome then some .wait else none
  | .exitOp => some .exit

/-- The last control message a trace sends to the listener task, if any. -/
def lastControl (w : ScriptWorkerThread) : List Op → Option ServerStatus
  | [] => none
  | op :: ops =>
    match lastControl (step w op) ops with
    | some s => some s
    | none => controlSent w op

/-- Listener state determined by the last control message received, when
the task is alive: no message received yet leaves the initial state. -/
def applyControl (l : ListenerStatus) : Option ServerStatus → ListenerStatus
  | none => l
  | some .start => .accepting
  | some .wait => .rejecting
  | some .exit => .terminated

/-! ### HTTP handlers and reverse proxy (`lib.rs`, `api/runtime_controller.rs`) -/

/-- The serialized `Res { code, data }` envelope
(`serde_json::to_string`): `\x7b"code":c,"data":"d"\x7d`. -/
def resBody (code : Int) (data : String) : String :=
  "\x7b\"code\":" ++ toString code ++ ",\"data\":\"" ++ data ++ "\"\x7d"

/-- The Worker branch of the `/runtime/{id}/start` handler: call
`start_watch_runtime` only when `watch_tx` is `None`. -/
def httpStartRuntime (w : ScriptWorkerThread) : ScriptWorkerThread :=
  if w.watch_tx.isNone then ScriptWorkerThread.start_watch_runtime w else w

/-- The `/runtime/pro/{id}/start` handler on a tenant with no registered
Worker: construct the Worker (with the given bind outcome), call
`start_runtime`, insert it into the registry, and answer
`Res { code: 0, data: "成功启动" }` unconditionally. The first component is
the envelope `code` of the HTTP response. -/
def startProHandler (bindOk : Bool) : Int × ScriptWorkerThread :=
  let w := ScriptWorkerThread.new "t" 3001 bindOk
  (0, ScriptWorkerThread.start_runtime w)

/-- Outcome of the reverse-proxy entry `forward` (`lib.rs`): either an
immediate plain-text response with an HTTP status, or the request is
forwarded to `127.0.0.1:port`. -/
inductive ForwardOutcome where
  | plainResponse (status : Nat) (body : String)
  | forwarded (port : Nat)
deriving DecidableEq, Repr

/-- Model of `forward` (`lib.rs`): a missing `product_code` header answers
`HttpResponse::NotFound().body("product_code not found")`; a tenant absent
from `PORT_TABLE` answers `NotFound` with `"{code} service not found"`;
otherwise the request is forwarded to the tenant's port. -/
def forward (portTable : List (String × Nat)) (header : Option String) :
    ForwardOutcome :=
  match header with
  | none => .plainResponse 404 "product_code not found"
  | some code =>
    match lookupTable portTable code with
    | none => .plainResponse 404 (code ++ " service not found")
    | some p => .forwarded p

/-- The `WorkerInfo` payload of `/runtime/{id}/info`. -/
structure WorkerInfo where
  count : Nat
  code : String
  description : String
deriving DecidableEq, Repr

/-- Model of `get_runtime_info` (`api/runtime_controller.rs`): an unregistered tenant
reports count 0; a registered Worker reports the number of held production
handles, bumped to 1 when that number is 0 and a dev channel is present;
the envelope code is 0 in both branches. The first component is the
envelope `code`. -/
def get_runtime_info (workerTable : List (String × ScriptWorkerThread))
    (params : String) : Int × WorkerInfo :=
  match lookupTable workerTable params with
  | none => (0, ⟨0, params, "暂无实例"⟩)
  | some w =>
    let count := w.worker_handlers.length
    let count := if count = 0 ∧ w.watch_tx.isSome then 1 else count
    (0, ⟨count, params, "请求头上添加 product_code=" ++ params⟩)

/-! ### Allocator lemmas -/

lemma portNext_eq_some {p q : Nat} (h : portNext p = some q) : q = p + 1 := by
  unfold portNext at h
  by_cases hp : p + 1 ≤ 65535
  · simp [hp] at h
    exact h.symm
  · simp [hp] at h

lemma allocLoop_assigned {free : Nat → Bool} {cur fb fuel p : Nat}
    (hc : portNext cur = some (cur + 1))
    (h : allocLoop free cur fb fuel = .assigned p) : p = cur + 1 := by
  induction fuel with
  | zero => simp [allocLoop] at h
  | succ n ih =>
    rw [allocLoop, hc] at h
    by_cases hf : free (cur + 1) = true
    · simp [hf] at h
      exact h.symm
    · simp [hf] at h
      exact ih h

lemma get_next_port_assigned {free : Nat → Bool} {cur fuel p : Nat}
    (h : get_next_port free cur fuel = .assigned p) : p = cur + 1 := by
  unfold get_next_port at h
  cases hc : portNext cur with
  | none => rw [hc] at h; exact absurd h (by simp)
  | some q =>
    rw [hc] at h
    have hq : q = cur + 1 := portNext_eq_some hc
    subst hq
    exact allocLoop_assigned hc h

lemma get_next_port_st_some {free : Nat → Bool} {fuel : Nat} {t : String}
    {st : AllocState} {p : Nat} {st1 : AllocState}
    (h : get_next_port_st free fuel t st = some (p, st1)) :
    p = st.cursor + 1 ∧ st1.cursor = st.cursor + 1 := by
  unfold get_next_port_st at h
  cases hg : get_next_port free st.cursor fuel with
  | assigned q =>
    rw [hg] at h
    simp at h
    have hq : q = st.cursor + 1 := get_next_port_assigned hg
    obtain ⟨h1, h2⟩ := h
    subst h1
    constructor
    · exact hq
    · rw [← h2]
      exact hq
  | panicked => rw [hg] at h; simp at h
  | outOfFuel => rw [hg] at h; simp at h

lemma allocAll_range {free : Nat → Bool} {fuel : Nat} :
    ∀ (ts : List String) (st : AllocState) (ps : List Nat) (st2 : AllocState),
      allocAll free fuel st ts = some (ps, st2) →
      ps = List.range' (st.cursor + 1) ts.length := by
  intro ts
  induction ts with
  | nil =>
    intro st ps st2 h
    simp [allocAll] at h
    simp [h.1]
  | cons t ts ih =>
    intro st ps st2 h
    rw [allocAll] at h
    cases h1 : get_next_port_st free fuel t st with
    | none => rw [h1] at h; simp at h
    | some pr =>
      obtain ⟨p, st1⟩ := pr
      rw [h1] at h
      dsimp only at h
      cases h2 : allocAll free fuel st1 ts with
      | none => rw [h2] at h; simp at h
      | some pr2 =>
        rw [h2] at h
        obtain ⟨ps1, stf⟩ := pr2
        simp at h
        obtain ⟨hp, hst⟩ := h
        obtain ⟨hp1, hcur⟩ := get_next_port_st_some h1
        have htail := ih st1 ps1 stf h2
        rw [← hp, hp1, List.length_cons, List.range'_succ, htail, hcur]

/-- C2: the probe loop of `get_next_port` never advances the cursor — every
iteration recomputes the same candidate `cursor + 1`. Failing input: cursor
3000 with port 3001 occupied and port 3002 free; the claimed behaviour would
select 3002, but the loop re-probes 3001 forever (it never assigns any port,
for any number of iterations), even though 3002 is free. -/
theorem get_next_port_never_advances :
    (∀ fuel : Nat, get_next_port (fun p => p == 3002) 3000 fuel = .outOfFuel) ∧
    (fun p : Nat => p == 3002) 3002 = true ∧
    get_next_port (fun _ => true) 3000 1 = .assigned 3001 := by
  refine ⟨?_, by decide, by decide⟩
  intro fuel
  have hloop : ∀ n : Nat,
      allocLoop (fun p => p == 3002) 3000 3001 n = .outOfFuel := by
    intro n
    induction n with
    | zero => rfl
    | succ k ih =>
      rw [allocLoop]
      simp only [portNext]
      norm_num
      exact ih
  unfold get_next_port
  simp only [portNext]
  norm_num
  exact hloop fuel

/-- C4: any serialized sequence of completed port assignments for a list of
distinct tenants yields pairwise distinct ports (they are the consecutive
ports `cursor+1, cursor+2, …`). -/
theorem assigned_ports_pairwise_distinct (free : Nat → Bool) (fuel : Nat)
    (st : AllocState) (ts : List String) (ps : List Nat) (st2 : AllocState)
    (_hts : ts.Nodup) (h : allocAll free fuel st ts = some (ps, st2)) :
    ps.Nodup := by
  have := allocAll_range ts st ps st2 h
  rw [this]
  exact List.nodup_range' _ _

/-- Witness for `assigned_ports_pairwise_distinct`: three tenants starting
from cursor 3000 with every port free receive ports 3001, 3002, 3003. -/
theorem assigned_ports_pairwise_distinct_witness :
    ([3001, 3002, 3003] : List Nat).Nodup :=
  assigned_ports_pairwise_distinct (fun _ => true) 1 ⟨3000, []⟩
    ["a", "b", "c"] [3001, 3002, 3003]
    ⟨3003, [("c", 3003), ("b", 3002), ("a", 3001)]⟩
    (by decide) (by decide)

/-! ### Lifecycle lemmas -/

/-- Listener effect of an optional control message. -/
def recvOpt (l : ListenerStatus) : Option ServerStatus → ListenerStatus
  | none => l
  | some s => sendStatus l s

lemma step_listener_eq (w : ScriptWorkerThread) (op : Op) (hop : op ≠ .exitOp) :
    (step w op).listener = recvOpt w.listener (controlSent w op) := by
  cases op with
  | startRuntime =>
    simp only [step, ScriptWorkerThread.start_runtime, controlSent]
    by_cases hl : w.worker_handlers.length = 0 <;> simp [hl, recvOpt]
  | startDebugger =>
    simp only [step, ScriptWorkerThread.start_debugger_runtime, controlSent]
    by_cases hl : w.worker_handlers.length = 0 <;>
      simp [hl, ScriptWorkerThread.start_runtime, recvOpt]
  | startWatch =>
    simp [step, ScriptWorkerThread.start_watch_runtime, controlSent, recvOpt]
  | stopRuntime =>
    simp only [step, ScriptWorkerThread.stop_runtime, controlSent]
    cases hg : w.worker_handlers.getLast? with
    | none =>
      have h0 : w.worker_handlers = [] := by
        cases hw : w.worker_handlers with
        | nil => rfl
        | cons a l => rw [hw] at hg; simp [List.getLast?_concat] at hg
      simp [hg, h0, recvOpt]
    | some h =>
      have hne : w.worker_handlers ≠ [] := by
        intro hw; rw [hw] at hg; simp at hg
      have hlen : w.worker_handlers.dropLast.length = w.worker_handlers.length - 1 := by
        simp [List.length_dropLast]
      by_cases h1 : w.worker_handlers.length = 1
      · have hz : w.worker_handlers.length - 1 = 0 := by omega
        simp [hg, hz, h1, recvOpt]
      · have hpos : 0 < w.worker_handlers.length := List.length_pos.mpr hne
        have hz : w.worker_handlers.length - 1 ≠ 0 := by omega
        simp [hg, hz, h1, recvOpt]
  | stopWatch =>
    simp only [step, ScriptWorkerThread.stop_watch_runtime, controlSent]
    cases hw : w.watch_tx <;> simp [hw, recvOpt]
  | exitOp => exact absurd rfl hop

lemma recvOpt_alive {l : ListenerStatus} {o : Option ServerStatus}
    (hl : listenerAlive l = true) (ho : o ≠ some .exit) :
    listenerAlive (recvOpt l o) = true := by
  cases o with
  | none => exact hl
  | some s =>
    cases s with
    | start => cases l <;> simp_all [recvOpt, sendStatus, listenerAlive]
    | wait => cases l <;> simp_all [recvOpt, sendStatus, listenerAlive]
    | exit => exact absurd rfl ho

lemma controlSent_ne_exit (w : ScriptWorkerThread) (op : Op)
    (hop : op ≠ .exitOp) : controlSent w op ≠ some .exit := by
  cases op with
  | exitOp => exact absurd rfl hop
  | startRuntime => simp only [controlSent]; split <;> simp
  | startDebugger => simp only [controlSent]; split <;> simp
  | startWatch => simp [controlSent]
  | stopRuntime => simp only [controlSent]; split <;> simp
  | stopWatch => simp only [controlSent]; split <;> simp

lemma step_alive {w : ScriptWorkerThread} {op : Op} (hop : op ≠ .exitOp)
    (hl : listenerAlive w.listener = true) :
    listenerAlive (step w op).listener = true := by
  rw [step_listener_eq w op hop]
  exact recvOpt_alive hl (controlSent_ne_exit w op hop)

lemma runFrom_listener :
    ∀ (ops : List Op) (w : ScriptWorkerThread), Op.exitOp ∉ ops →
      listenerAlive w.listener = true →
      (runFrom w ops).listener = applyControl w.listener (lastControl w ops) := by
  intro ops
  induction ops with
  | nil => intro w _ _; rfl
  | cons op ops ih =>
    intro w hmem hl
    have hop : op ≠ .exitOp := by
      intro he; exact hmem (he ▸ List.mem_cons_self op ops)
    have hmem2 : Op.exitOp ∉ ops := fun hc => hmem (List.mem_cons_of_mem op hc)
    have hstep : runFrom w (op :: ops) = runFrom (step w op) ops := rfl
    have halive : listenerAlive (step w op).listener = true := step_alive hop hl
    rw [hstep, ih (step w op) hmem2 halive, lastControl]
    cases hlc : lastControl (step w op) ops with
    | some s => cases s <;> simp [applyControl]
    | none =>
      simp only [applyControl]
      rw [step_listener_eq w op hop]
      cases hcs : controlSent w op with
      | none => rfl
      | some s =>
        cases s with
        | start =>
          cases hw : w.listener <;>
            simp_all [recvOpt, sendStatus, applyControl, listenerAlive]
        | wait =>
          cases hw : w.listener <;>
            simp_all [recvOpt, sendStatus, applyControl, listenerAlive]
        | exit => exact absurd hcs (controlSent_ne_exit w op hop)

/-! ### C1: Listener state over lifecycle traces -/

/-- C1 counterexample: immediately after Worker construction, before any
start call, the listener loop runs with `ok = false`, i.e. it is in the
Accepting (forwarding) state, while no production instance is running and
no development-mode channel exists — so the claimed "Accepting iff an
instance runs or dev mode is active" and the claimed initial Rejecting
state both fail at the empty trace. -/
theorem listener_initially_accepting_counterexample :
    (run []).listener = ListenerStatus.accepting ∧
    (run []).worker_handlers.length = 0 ∧
    (run []).watch_tx = none ∧
    ¬((run []).listener = ListenerStatus.accepting ↔
        (0 < (run []).worker_handlers.length ∨ (run []).watch_tx.isSome = true)) := by
  refine ⟨rfl, rfl, rfl, ?_⟩
  intro h
  rcases h.mp rfl with h1 | h1 <;> simp [run, runFrom, ScriptWorkerThread.new] at h1

/-- C1 (amended): the Listener Loop starts in `Accepting` (forwarding) at
construction, before any start call; thereafter its state is exactly that
induced by the last control message sent by a completed operation:
`start_watch_runtime` (always) and `start_runtime`/`start_debugger_runtime`
on an empty instance list send `Start` (Accepting), while
`stop_watch_runtime` with an active dev channel and a `stop_runtime` that
empties the instance list send `Wait` (Rejecting) — even when the other
mode is still active. In particular Accepting holds iff no control message
was sent yet or the last one was `Start`. -/
theorem listener_state_characterization (ops : List Op)
    (h : Op.exitOp ∉ ops) :
    (run ops).listener =
      applyControl ListenerStatus.accepting
        (lastControl (ScriptWorkerThread.new "t" 3001 true) ops) ∧
    ((run ops).listener = ListenerStatus.accepting ↔
      (lastControl (ScriptWorkerThread.new "t" 3001 true) ops = none ∨
        lastControl (ScriptWorkerThread.new "t" 3001 true) ops = some .start)) := by
  have hinit : listenerAlive (ScriptWorkerThread.new "t" 3001 true).listener = true := rfl
  have hmain := runFrom_listener ops (ScriptWorkerThread.new "t" 3001 true) h hinit
  refine ⟨hmain, ?_⟩
  rw [show run ops = runFrom (ScriptWorkerThread.new "t" 3001 true) ops from rfl, hmain]
  cases lastControl (ScriptWorkerThread.new "t" 3001 true) ops with
  | none => simp [applyControl, ScriptWorkerThread.new]
  | some s => cases s <;> simp [applyControl]

/-- Witness for `listener_state_characterization` at the mixed trace
"start a production instance, start dev mode, stop the production
instance": the last control message is `Wait`, so the loop is Rejecting
although the dev channel is still active. -/
theorem listener_state_characterization_witness :
    (run [Op.startRuntime, Op.startWatch, Op.stopRuntime]).listener =
      applyControl ListenerStatus.accepting
        (lastControl (ScriptWorkerThread.new "t" 3001 true)
          [Op.startRuntime, Op.startWatch, Op.stopRuntime]) ∧
    ((run [Op.startRuntime, Op.startWatch, Op.stopRuntime]).listener =
        ListenerStatus.accepting ↔
      (lastControl (ScriptWorkerThread.new "t" 3001 true)
          [Op.startRuntime, Op.startWatch, Op.stopRuntime] = none ∨
        lastControl (ScriptWorkerThread.new "t" 3001 true)
          [Op.startRuntime, Op.startWatch, Op.stopRuntime] = some .start)) :=
  listener_state_characterization
    [Op.startRuntime, Op.startWatch, Op.stopRuntime] (by decide)

/-! ### C3: Port table versus listener liveness -/

lemma step_inPortTable (w : ScriptWorkerThread) (op : Op)
    (hop : op ≠ .exitOp) : (step w op).inPortTable = w.inPortTable := by
  cases op with
  | startRuntime =>
    simp only [step, ScriptWorkerThread.start_runtime]
    split <;> rfl
  | startDebugger =>
    simp only [step, ScriptWorkerThread.start_debugger_runtime,
      ScriptWorkerThread.start_runtime]
    split <;> rfl
  | startWatch => rfl
  | stopRuntime =>
    simp only [step, ScriptWorkerThread.stop_runtime]
    cases w.worker_handlers.getLast? with
    | none => rfl
    | some h =>
      simp only []
      split <;> rfl
  | stopWatch =>
    simp only [step, ScriptWorkerThread.stop_watch_runtime]
    cases w.watch_tx <;> rfl
  | exitOp => exact absurd rfl hop

lemma stop_runtime_inPortTable (w : ScriptWorkerThread) :
    (ScriptWorkerThread.stop_runtime w).2.inPortTable = w.inPortTable := by
  simp only [ScriptWorkerThread.stop_runtime]
  cases w.worker_handlers.getLast? with
  | none => rfl
  | some h => simp only []; split <;> rfl

lemma stop_runtime_listenerAlive (w : ScriptWorkerThread) :
    listenerAlive (ScriptWorkerThread.stop_runtime w).2.listener =
      listenerAlive w.listener := by
  simp only [ScriptWorkerThread.stop_runtime]
  cases w.worker_handlers.getLast? with
  | none => rfl
  | some h =>
    simp only []
    split
    · cases w.listener <;> rfl
    · rfl

lemma stopRuntimeLoop_inPortTable :
    ∀ (fuel : Nat) (w : ScriptWorkerThread),
      (stopRuntimeLoop fuel w).2.inPortTable = w.inPortTable := by
  intro fuel
  induction fuel with
  | zero => intro w; rfl
  | succ n ih =>
    intro w
    rw [stopRuntimeLoop]
    cases hs : ScriptWorkerThread.stop_runtime w with
    | mk o w1 =>
      cases o with
      | none =>
        have := stop_runtime_inPortTable w
        rw [hs] at this
        exact this
      | some c =>
        have h1 := stop_runtime_inPortTable w
        rw [hs] at h1
        simp only []
        rw [ih w1, h1]

lemma stopRuntimeLoop_listenerAlive :
    ∀ (fuel : Nat) (w : ScriptWorkerThread),
      listenerAlive (stopRuntimeLoop fuel w).2.listener =
        listenerAlive w.listener := by
  intro fuel
  induction fuel with
  | zero => intro w; rfl
  | succ n ih =>
    intro w
    rw [stopRuntimeLoop]
    cases hs : ScriptWorkerThread.stop_runtime w with
    | mk o w1 =>
      cases o with
      | none =>
        have := stop_runtime_listenerAlive w
        rw [hs] at this
        exact this
      | some c =>
        have h1 := stop_runtime_listenerAlive w
        rw [hs] at h1
        simp only []
        rw [ih w1, h1]

lemma stop_watch_inPortTable (w : ScriptWorkerThread) :
    (ScriptWorkerThread.stop_watch_runtime w).inPortTable = w.inPortTable := by
  simp only [ScriptWorkerThread.stop_watch_runtime]
  cases w.watch_tx <;> rfl

lemma stop_watch_listenerAlive (w : ScriptWorkerThread) :
    listenerAlive (ScriptWorkerThread.stop_watch_runtime w).listener =
      listenerAlive w.listener := by
  simp only [ScriptWorkerThread.stop_watch_runtime]
  cases w.watch_tx with
  | none => rfl
  | some c => cases w.listener <;> rfl

lemma dropWorker_state (w : ScriptWorkerThread) :
    (ScriptWorkerThread.dropWorker w).2.inPortTable = false ∧
    (listenerAlive w.listener = true →
      (ScriptWorkerThread.dropWorker w).2.listener = ListenerStatus.terminated) := by
  simp only [ScriptWorkerThread.dropWorker, ScriptWorkerThread.stop_all_runtime]
  constructor
  · rw [stopRuntimeLoop_inPortTable, stop_watch_inPortTable]
  · intro hl
    have h1 : listenerAlive
        (stopRuntimeLoop
          (ScriptWorkerThread.stop_watch_runtime
            { w with inPortTable := false }).worker_handlers.length
          (ScriptWorkerThread.stop_watch_runtime
            { w with inPortTable := false })).2.listener = true := by
      rw [stopRuntimeLoop_listenerAlive, stop_watch_listenerAlive]
      exact hl
    generalize (stopRuntimeLoop
        (ScriptWorkerThread.stop_watch_runtime
          { w with inPortTable := false }).worker_handlers.length
        (ScriptWorkerThread.stop_watch_runtime
          { w with inPortTable := false })).2.listener = l at h1 ⊢
    cases l <;> simp_all [listenerAlive, sendStatus]

/-- C3 counterexample: when the construction-time bind fails, the listener
task dies on `TcpListener::bind(..).unwrap()` but `get_next_port` has
already put the tenant into the Port table — a reachable state with a
Port-table entry and no bound, alive Listener Loop. -/
theorem port_entry_without_live_listener_counterexample :
    (ScriptWorkerThread.new "t" 3001 false).inPortTable = true ∧
    listenerAlive (ScriptWorkerThread.new "t" 3001 false).listener = false := by
  exact ⟨rfl, rfl⟩

/-- C3 (amended): provided the construction-time bind succeeds, the Port
table holds the tenant exactly while its Listener Loop is alive: every
state reached by completed lifecycle operations before destruction has the
entry present and the loop alive, and destruction (registry removal /
`exit`) removes the entry and terminates the loop in the same teardown. -/
theorem port_table_iff_listener_alive (ops : List Op)
    (h : Op.exitOp ∉ ops) :
    ((run ops).inPortTable = true ∧
      listenerAlive (run ops).listener = true) ∧
    ((step (run ops) Op.exitOp).inPortTable = false ∧
      (step (run ops) Op.exitOp).listener = ListenerStatus.terminated) := by
  have hinv : ∀ (l : List Op) (w : ScriptWorkerThread), Op.exitOp ∉ l →
      w.inPortTable = true → listenerAlive w.listener = true →
      (runFrom w l).inPortTable = true ∧
        listenerAlive (runFrom w l).listener = true := by
    intro l
    induction l with
    | nil => intro w _ hp hl; exact ⟨hp, hl⟩
    | cons op l ih =>
      intro w hmem hp hl
      have hop : op ≠ .exitOp := by
        intro he; exact hmem (he ▸ List.mem_cons_self op l)
      have hmem2 : Op.exitOp ∉ l := fun hc => hmem (List.mem_cons_of_mem op hc)
      have hp1 : (step w op).inPortTable = true := by
        rw [step_inPortTable w op hop]; exact hp
      have hl1 : listenerAlive (step w op).listener = true := step_alive hop hl
      exact ih (step w op) hmem2 hp1 hl1
  have hrun := hinv ops (ScriptWorkerThread.new "t" 3001 true) h rfl rfl
  refine ⟨hrun, ?_, ?_⟩
  · exact (dropWorker_state (run ops)).1
  · exact (dropWorker_state (run ops)).2 hrun.2

/-- Witness for `port_table_iff_listener_alive` at the trace that starts
one production instance: the entry is present and the loop alive, and the
subsequent `exit` clears both. -/
theorem port_table_iff_listener_alive_witness :
    ((run [Op.startRuntime]).inPortTable = true ∧
      listenerAlive (run [Op.startRuntime]).listener = true) ∧
    ((step (run [Op.startRuntime]) Op.exitOp).inPortTable = false ∧
      (step (run [Op.startRuntime]) Op.exitOp).listener =
        ListenerStatus.terminated) :=
  port_table_iff_listener_alive [Op.startRuntime] (by decide)

/-! ### C5: LIFO stop order -/

/-- C5: on any Worker with no production instance, `stop_runtime` is a
tolerant no-op returning `false` (`none`) without modifying any state; and
after starting instances A, B, C in that order (handles `nextChan`,
`nextChan+1`, `nextChan+2`), three successive `stop_runtime` calls signal
C, then B, then A, each returning `true`, and a fourth call returns `false`
leaving the state unchanged. -/
theorem stop_runtime_lifo (w : ScriptWorkerThread)
    (h : w.worker_handlers = []) :
    ScriptWorkerThread.stop_runtime w = (none, w) ∧
    (ScriptWorkerThread.stop_runtime
        (ScriptWorkerThread.start_runtime
          (ScriptWorkerThread.start_runtime
            (ScriptWorkerThread.start_runtime w)))).1 = some (w.nextChan + 2) ∧
    (ScriptWorkerThread.stop_runtime
        (ScriptWorkerThread.stop_runtime
          (ScriptWorkerThread.start_runtime
            (ScriptWorkerThread.start_runtime
              (ScriptWorkerThread.start_runtime w)))).2).1 = some (w.nextChan + 1) ∧
    (ScriptWorkerThread.stop_runtime
        (ScriptWorkerThread.stop_runtime
          (ScriptWorkerThread.stop_runtime
            (ScriptWorkerThread.start_runtime
              (ScriptWorkerThread.start_runtime
                (ScriptWorkerThread.start_runtime w)))).2).2).1 = some w.nextChan ∧
    ScriptWorkerThread.stop_runtime
        (ScriptWorkerThread.stop_runtime
          (ScriptWorkerThread.stop_runtime
            (ScriptWorkerThread.stop_runtime
              (ScriptWorkerThread.start_runtime
                (ScriptWorkerThread.start_runtime
                  (ScriptWorkerThread.start_runtime w)))).2).2).2 =
      (none,
        (ScriptWorkerThread.stop_runtime
          (ScriptWorkerThread.stop_runtime
            (ScriptWorkerThread.stop_runtime
              (ScriptWorkerThread.start_runtime
                (ScriptWorkerThread.start_runtime
                  (ScriptWorkerThread.start_runtime w)))).2).2).2) := by
  refine ⟨?_, ?_⟩
  · simp [ScriptWorkerThread.stop_runtime, h]
  · simp [ScriptWorkerThread.start_runtime, ScriptWorkerThread.stop_runtime, h]

/-- Witness for `stop_runtime_lifo` at a freshly constructed Worker. -/
theorem stop_runtime_lifo_witness :
    ScriptWorkerThread.stop_runtime (run []) = (none, run []) ∧
    (ScriptWorkerThread.stop_runtime
        (ScriptWorkerThread.start_runtime
          (ScriptWorkerThread.start_runtime
            (ScriptWorkerThread.start_runtime (run []))))).1 =
      some ((run []).nextChan + 2) ∧
    (ScriptWorkerThread.stop_runtime
        (ScriptWorkerThread.stop_runtime
          (ScriptWorkerThread.start_runtime
            (ScriptWorkerThread.start_runtime
              (ScriptWorkerThread.start_runtime (run []))))).2).1 =
      some ((run []).nextChan + 1) ∧
    (ScriptWorkerThread.stop_runtime
        (ScriptWorkerThread.stop_runtime
          (ScriptWorkerThread.stop_runtime
            (ScriptWorkerThread.start_runtime
              (ScriptWorkerThread.start_runtime
                (ScriptWorkerThread.start_runtime (run []))))).2).2).1 =
      some (run []).nextChan ∧
    ScriptWorkerThread.stop_runtime
        (ScriptWorkerThread.stop_runtime
          (ScriptWorkerThread.stop_runtime
            (ScriptWorkerThread.stop_runtime
              (ScriptWorkerThread.start_runtime
                (ScriptWorkerThread.start_runtime
                  (ScriptWorkerThread.start_runtime (run []))))).2).2).2 =
      (none,
        (ScriptWorkerThread.stop_runtime
          (ScriptWorkerThread.stop_runtime
            (ScriptWorkerThread.stop_runtime
              (ScriptWorkerThread.start_runtime
                (ScriptWorkerThread.start_runtime
                  (ScriptWorkerThread.start_runtime (run []))))).2).2).2) :=
  stop_runtime_lifo (run []) rfl

/-! ### C6: start_watch_runtime idempotence -/

/-- C6 counterexample: `start_watch_runtime` has no guard — calling it
twice in a row on a fresh Worker spawns two dev-mode runtimes; both are
still active, the first one's cancellation sender having been overwritten,
so there is not "exactly one active development-mode channel" and the
second call changed the state. -/
theorem start_watch_runtime_not_idempotent :
    (run [Op.startWatch, Op.startWatch]).devRuntimes.length = 2 ∧
    (run [Op.startWatch, Op.startWatch]).watch_tx = some 1 ∧
    run [Op.startWatch, Op.startWatch] ≠ run [Op.startWatch] := by
  refine ⟨rfl, rfl, ?_⟩
  intro h
  have := congrArg ScriptWorkerThread.nextChan h
  simp [run, runFrom, step, ScriptWorkerThread.start_watch_runtime,
    ScriptWorkerThread.new] at this

/-- C6 (amended): idempotence holds one level up — the Worker branch of the
`/runtime/{id}/start` handler calls `start_watch_runtime` only when no
dev-mode channel exists, so the handler is idempotent on the Worker and two
successive handler calls on a fresh Worker leave exactly one active
dev-mode runtime; the bare `start_watch_runtime` method itself spawns a new
runtime on every call. -/
theorem http_start_runtime_idempotent (w : ScriptWorkerThread) :
    httpStartRuntime (httpStartRuntime w) = httpStartRuntime w ∧
    (httpStartRuntime (httpStartRuntime (run []))).devRuntimes.length = 1 := by
  constructor
  · cases hw : w.watch_tx with
    | some c => simp [httpStartRuntime, hw]
    | none => simp [httpStartRuntime, hw, ScriptWorkerThread.start_watch_runtime]
  · rfl

/-! ### C7: Drop teardown order -/

lemma stopRuntimeLoop_events :
    ∀ (n : Nat) (w : ScriptWorkerThread), w.worker_handlers.length = n →
      (stopRuntimeLoop n w).1 =
        w.worker_handlers.reverse.map DropEvent.instStopSignal := by
  intro n
  induction n with
  | zero =>
    intro w hw
    have h0 : w.worker_handlers = [] := List.length_eq_zero.mp hw
    simp [stopRuntimeLoop, h0]
  | succ n ih =>
    intro w hw
    have hne : w.worker_handlers ≠ [] := by
      intro h0; rw [h0] at hw; simp at hw
    have hg : w.worker_handlers.getLast? = some (w.worker_handlers.getLast hne) :=
      List.getLast?_eq_getLast _ hne
    have hsplit : w.worker_handlers =
        w.worker_handlers.dropLast ++ [w.worker_handlers.getLast hne] :=
      (List.dropLast_append_getLast hne).symm
    have hlen : w.worker_handlers.dropLast.length = n := by
      simp [List.length_dropLast, hw]
    rw [stopRuntimeLoop]
    simp only [ScriptWorkerThread.stop_runtime, hg]
    by_cases hz : w.worker_handlers.dropLast.length = 0
    · rw [if_pos hz]
      have hdl : w.worker_handlers.dropLast = [] := List.length_eq_zero.mp hz
      have hn : n = 0 := by omega
      subst hn
      conv_rhs => rw [hsplit]
      simp [hdl, stopRuntimeLoop]
    · rw [if_neg hz]
      have hrec := ih { w with worker_handlers := w.worker_handlers.dropLast } hlen
      conv_rhs => rw [hsplit]
      simp only [List.reverse_append, List.reverse_cons, List.reverse_nil,
        List.nil_append, List.singleton_append, List.map_cons]
      rw [← hrec]

/-- C7 (amended): `Drop for ScriptWorkerThread` dispatches teardown in the
order (a) remove the tenant's Port-table entry, then (c) stop development
mode if active, then (b) stop every running production instance in LIFO
order, then (d) signal `ServerStatus::Exit` to the Listener Loop — dev-mode
stop comes before the production stops (via `stop_all_runtime`), not after
them. -/
theorem drop_event_order (w : ScriptWorkerThread) :
    (ScriptWorkerThread.dropWorker w).1 =
      DropEvent.portRemoved ::
        ((match w.watch_tx with
          | some c => [DropEvent.devStopSignal c]
          | none => []) ++
          w.worker_handlers.reverse.map DropEvent.instStopSignal ++
          [DropEvent.exitSignal]) := by
  simp only [ScriptWorkerThread.dropWorker, ScriptWorkerThread.stop_all_runtime]
  have hh : (ScriptWorkerThread.stop_watch_runtime
      { w with inPortTable := false }).worker_handlers = w.worker_handlers := by
    simp only [ScriptWorkerThread.stop_watch_runtime]
    cases w.watch_tx <;> rfl
  have hev := stopRuntimeLoop_events
    (ScriptWorkerThread.stop_watch_runtime
      { w with inPortTable := false }).worker_handlers.length
    (ScriptWorkerThread.stop_watch_runtime { w with inPortTable := false }) rfl
  rw [hev, hh]
  cases w.watch_tx <;> simp

/-- C7 counterexample: for a Worker with two production instances and an
active dev channel, the drop trace signals the dev runtime before the
production instances — not after them as the claimed (a),(b),(c),(d) order
requires. -/
theorem drop_stops_dev_before_instances :
    (ScriptWorkerThread.dropWorker
        (run [Op.startRuntime, Op.startRuntime, Op.startWatch])).1 =
      [DropEvent.portRemoved, DropEvent.devStopSignal 2,
        DropEvent.instStopSignal 1, DropEvent.instStopSignal 0,
        DropEvent.exitSignal] ∧
    (ScriptWorkerThread.dropWorker
        (run [Op.startRuntime, Op.startRuntime, Op.startWatch])).1 ≠
      [DropEvent.portRemoved, DropEvent.instStopSignal 1,
        DropEvent.instStopSignal 0, DropEvent.devStopSignal 2,
        DropEvent.exitSignal] := by
  exact ⟨rfl, by decide⟩

/-! ### C8: bind failure at construction -/

/-- C8 counterexample: with a failing bind, the `/runtime/pro/{id}/start`
handler still constructs the Worker, calls `start_runtime`, and answers the
success envelope `code 0` — the failure is not propagated to the caller;
the listener task is dead while the Port table still holds the tenant. -/
theorem bind_failure_reports_success :
    (startProHandler false).1 = 0 ∧
    (startProHandler false).2.listener = ListenerStatus.dead ∧
    (startProHandler false).2.inPortTable = true := by
  exact ⟨rfl, rfl, rfl⟩

/-- C8 (amended): `TcpListener::bind(addr).await.unwrap()` runs inside the
detached listener task spawned by `ScriptWorkerThread::new`, so a bind
failure only kills that task: construction always returns the Worker,
`start` always answers envelope code 0, the Port-table entry is always
present, and the listener is accepting on a successful bind but dead on a
failed one. -/
theorem construction_ignores_bind_failure (bindOk : Bool) :
    (startProHandler bindOk).1 = 0 ∧
    (startProHandler bindOk).2.inPortTable = true ∧
    (startProHandler bindOk).2.listener =
      (if bindOk then ListenerStatus.accepting else ListenerStatus.dead) := by
  cases bindOk <;> exact ⟨rfl, rfl, rfl⟩

/-! ### C9: reverse-proxy error responses -/

/-- C9 counterexample: `forward` answers a missing `product_code` header
with `HttpResponse::NotFound().body("product_code not found")` — a plain
404 text body, which is not the serialized
`Res { code: 0, data: "product_code not found" }` JSON envelope the claim
describes (that envelope is used by the `/code` routes). -/
theorem forward_missing_header_plain_text :
    forward [] none =
      ForwardOutcome.plainResponse 404 "product_code not found" ∧
    "product_code not found" ≠ resBody 0 "product_code not found" := by
  exact ⟨rfl, by decide⟩

/-- C9 (amended): a proxied request with no `product_code` header receives
an HTTP 404 whose body is the plain text `product_code not found` (not the
`\x7bcode:0,...\x7d` JSON envelope) and is not forwarded; a header naming a
tenant absent from the Port table receives a 404 with plain body
`<tenant> service not found` and is not forwarded; a tenant present in the
Port table has the request forwarded to its port. -/
theorem forward_behavior (pt : List (String × Nat)) (t : String) :
    forward pt none =
      ForwardOutcome.plainResponse 404 "product_code not found" ∧
    forward pt (some t) =
      (match lookupTable pt t with
        | none => ForwardOutcome.plainResponse 404 (t ++ " service not found")
        | some p => ForwardOutcome.forwarded p) ∧
    "product_code not found" ≠ resBody 0 "product_code not found" := by
  refine ⟨rfl, ?_, by decide⟩
  cases h : lookupTable pt t <;> simp [forward, h]

/-! ### C10: the info endpoint -/

/-- C10: `/runtime/{id}/info` always answers envelope code 0; for an
unregistered tenant the reported running-instance count is 0, and for a
registered Worker it is the number of production instance handles held,
except that a zero count with a present dev-mode channel is reported as
1. -/
theorem runtime_info_count_correct
    (tbl : List (String × ScriptWorkerThread)) (t : String) :
    (get_runtime_info tbl t).1 = 0 ∧
    (get_runtime_info tbl t).2.count =
      (match lookupTable tbl t with
        | none => 0
        | some w =>
          if w.worker_handlers.length = 0 ∧ w.watch_tx.isSome then 1
          else w.worker_handlers.length) := by
  cases h : lookupTable tbl t <;> simp [get_runtime_info, h]

end DenoCool
